import Mathlib

/-!
# Verification of PropertyCalc

A shallow embedding, over exact rational arithmetic, of the calculation core of
the PropertyCalc repository (`src/PropertyCalc.py` and `src/testpropertyCalc.py`):
the mortgage payment formula, the amortization schedule loop, and the two
investment-outlook projectors.  Currency amounts and rates are modelled as `ℚ`;
year counts and payment frequencies as `ℕ`.  Python code that can raise
`ZeroDivisionError` is modelled as returning `Option`.
-/

/-- `calculate_mortgage_payment` from `src/PropertyCalc.py` lines 7-11 (identical in
`src/testpropertyCalc.py`).  In Python, `r = annual_rate / payments_per_year` raises
`ZeroDivisionError` when `payments_per_year = 0`, and the final division raises when
`(1 + r) ** n - 1 == 0`; both failure modes are modelled by `none`. -/
def calculate_mortgage_payment (principal annual_rate : ℚ) (years payments_per_year : ℕ) : Option ℚ :=
  if payments_per_year = 0 then none
  else
    let r : ℚ := annual_rate / payments_per_year
    let n : ℕ := years * payments_per_year
    if (1 + r) ^ n - 1 = 0 then none
    else some (principal * (r * (1 + r) ^ n) / ((1 + r) ^ n - 1))

/-- One iteration trace of the loop body of `generate_amortization_schedule`
(`src/PropertyCalc.py` lines 18-31).  Each emitted record is the triple
`(paymentAmount, interestPortion, principalPortion)` appended to the three lists.
The fuel argument is the remaining number of loop iterations
(`range(int(years * payments_per_year))`); the `ℚ` argument is the running balance.
When the updated balance drops below zero the loop adds the (negative) balance to
the principal portion, emits the shortened record and breaks. -/
def schedAux (rate_per payment : ℚ) : ℕ → ℚ → List (ℚ × ℚ × ℚ)
  | 0, _ => []
  | Nat.succ m, balance =>
    let interest_payment := balance * rate_per
    let principal_payment := payment - interest_payment
    let balance1 := balance - principal_payment
    if balance1 < 0 then
      [(principal_payment + balance1 + interest_payment, interest_payment, principal_payment + balance1)]
    else
      (payment, interest_payment, principal_payment) :: schedAux rate_per payment m balance1

/-- `generate_amortization_schedule` from `src/PropertyCalc.py` lines 14-33 (identical in
`src/testpropertyCalc.py`): returns the triple of lists
`(payment_list, interest_list, principal_list)`.  The per-period rate
`annual_rate / payments_per_year` is only evaluated inside the loop body, so a zero
`payments_per_year` runs zero iterations in Python without dividing; `ℚ` division by
zero is likewise inert here because the loop count `years * payments_per_year` is 0. -/
def generate_amortization_schedule (principal annual_rate : ℚ) (years payments_per_year : ℕ)
    (payment_amount : ℚ) : List ℚ × List ℚ × List ℚ :=
  let recs := schedAux (annual_rate / payments_per_year) payment_amount
    (years * payments_per_year) principal
  (recs.map (·.1), recs.map (·.2.1), recs.map (·.2.2))

/-- The mathematical running balance of the schedule loop: `balance ↦ balance * (1 + r) - payment`
iterated `k` times from the initial balance.  This is the value of the Python variable
`balance` after `k` non-breaking iterations. -/
def iterBal (rate_per payment balance : ℚ) : ℕ → ℚ
  | 0 => balance
  | Nat.succ k => iterBal rate_per payment balance k * (1 + rate_per) - payment

/-- The full (non-shortened) record emitted at a period with balance `b`:
payment as given, interest `b * r`, principal `payment - b * r`. -/
def fullRecord (rate_per payment b : ℚ) : ℚ × ℚ × ℚ :=
  (payment, b * rate_per, payment - b * rate_per)

theorem iterBal_shift (r pay b : ℚ) (k : ℕ) :
    iterBal r pay (b * (1 + r) - pay) k = iterBal r pay b (k + 1) := by
  induction k with
  | zero => rfl
  | succ k ih => simp only [iterBal, ih]

/-- If the running balance stays nonnegative after every one of the `m` steps, the loop
never breaks: it emits `m` full records whose interest and principal follow the recurrence. -/
theorem schedAux_eq_of_nonneg (r pay : ℚ) :
    ∀ (m : ℕ) (b : ℚ), (∀ k, k < m → 0 ≤ iterBal r pay b (k + 1)) →
      schedAux r pay m b = (List.range m).map (fun k => fullRecord r pay (iterBal r pay b k)) := by
  intro m
  induction m with
  | zero => intro b _; rfl
  | succ m ih =>
    intro b hb
    have h0 : 0 ≤ b * (1 + r) - pay := by
      have := hb 0 (Nat.succ_pos m)
      simpa [iterBal] using this
    have hnot : ¬ (b - (pay - b * r) < 0) := by
      push_neg
      nlinarith [h0]
    have hrec : schedAux r pay (m + 1) b =
        (pay, b * r, pay - b * r) :: schedAux r pay m (b - (pay - b * r)) := by
      simp only [schedAux, if_neg hnot]
    have hbal : b - (pay - b * r) = b * (1 + r) - pay := by ring
    rw [hrec, hbal, ih (b * (1 + r) - pay) ?_]
    · rw [List.range_succ_eq_map, List.map_cons, List.map_map]
      refine congrArg₂ _ ?_ ?_
      · simp [fullRecord, iterBal]
      · refine List.map_congr_left ?_
        intro k _
        simp only [Function.comp_apply, iterBal_shift]
    · intro k hk
      rw [iterBal_shift]
      exact hb (k + 1) (Nat.succ_lt_succ hk)

/-- If the balance first becomes negative after step `K` (with `K ≤ m` iterations available),
the loop emits `K - 1` full records and one shortened final record: its interest follows the
recurrence, its principal is exactly the remaining balance (the computed principal reduced by
the overshoot), and its payment is interest plus that reduced principal. -/
theorem schedAux_eq_of_break (r pay : ℚ) :
    ∀ (K m : ℕ) (b : ℚ), 0 < K → K ≤ m →
      (∀ j, j < K → 0 ≤ iterBal r pay b j) → iterBal r pay b K < 0 →
      schedAux r pay m b =
        ((List.range (K - 1)).map (fun k => fullRecord r pay (iterBal r pay b k))) ++
          [(iterBal r pay b (K - 1) * (1 + r), iterBal r pay b (K - 1) * r, iterBal r pay b (K - 1))] := by
  intro K
  induction K with
  | zero => intro m b hK; exact absurd hK (lt_irrefl 0)
  | succ K ih =>
    intro m b _ hKm hpos hneg
    obtain ⟨m', rfl⟩ : ∃ m', m = m' + 1 :=
      ⟨m - 1, (Nat.succ_pred_eq_of_pos (Nat.lt_of_lt_of_le (Nat.succ_pos K) hKm)).symm⟩
    rcases Nat.eq_zero_or_pos K with hK0 | hKpos
    · subst hK0
      have hneg1 : b - (pay - b * r) < 0 := by
        have : iterBal r pay b 1 < 0 := hneg
        simp only [iterBal] at this
        nlinarith [this]
      have : schedAux r pay (m' + 1) b =
          [(pay - b * r + (b - (pay - b * r)) + b * r, b * r, pay - b * r + (b - (pay - b * r)))] := by
        simp only [schedAux, if_pos hneg1]
      rw [this]
      simp only [Nat.sub_self, List.range_zero, List.map_nil, List.nil_append, iterBal]
      refine congrArg₂ _ ?_ rfl
      refine Prod.ext ?_ (Prod.ext ?_ ?_)
      all_goals simp
      all_goals ring
    · have h1 : 0 ≤ b * (1 + r) - pay := by
        have := hpos 1 (Nat.succ_lt_succ hKpos)
        simpa [iterBal] using this
      have hnot : ¬ (b - (pay - b * r) < 0) := by push_neg; nlinarith [h1]
      have hrec : schedAux r pay (m' + 1) b =
          (pay, b * r, pay - b * r) :: schedAux r pay m' (b - (pay - b * r)) := by
        simp only [schedAux, if_neg hnot]
      have hbal : b - (pay - b * r) = b * (1 + r) - pay := by ring
      rw [hrec, hbal, ih m' (b * (1 + r) - pay) hKpos (Nat.lt_succ_iff.mp hKm) ?_ ?_]
      · have hKsub : K + 1 - 1 = (K - 1) + 1 := by omega
        rw [hKsub, List.range_succ_eq_map, List.map_cons, List.map_map]
        have hsh : ∀ k : ℕ, iterBal r pay (b * (1 + r) - pay) k = iterBal r pay b (k + 1) :=
          iterBal_shift r pay b
        have hK1 : K - 1 + 1 = K := Nat.succ_pred_eq_of_pos hKpos
        rw [List.cons_append]
        refine congrArg₂ _ ?_ ?_
        · simp [fullRecord, iterBal]
        · refine congrArg₂ _ ?_ ?_
          · refine List.map_congr_left ?_
            intro k _
            simp only [Function.comp_apply, hsh]
          · rw [hsh (K - 1), hK1]
      · intro j hj
        rw [iterBal_shift]
        exact hpos (j + 1) (Nat.succ_lt_succ hj)
      · rw [iterBal_shift]
        exact hneg

theorem schedAux_length_le (r pay : ℚ) :
    ∀ (m : ℕ) (b : ℚ), (schedAux r pay m b).length ≤ m := by
  intro m
  induction m with
  | zero => intro b; simp [schedAux]
  | succ m ih =>
    intro b
    simp only [schedAux]
    split
    · simp
    · simpa using Nat.succ_le_succ (ih _)

/-- Closed form of the balance recurrence for a nonzero per-period rate. -/
theorem iterBal_closed (r pay b : ℚ) (hr : r ≠ 0) (k : ℕ) :
    iterBal r pay b k = b * (1 + r) ^ k - pay * ((1 + r) ^ k - 1) / r := by
  induction k with
  | zero => simp [iterBal]
  | succ k ih =>
    simp only [iterBal, ih, pow_succ]
    field_simp
    ring

/-- With the annuity payment of `calculate_mortgage_payment`, the balance after `k` of the
`n` contractual periods is `P * ((1+r)^n - (1+r)^k) / ((1+r)^n - 1)`. -/
theorem iterBal_annuity (r P : ℚ) (n : ℕ) (hr : r ≠ 0) (hd : (1 + r) ^ n - 1 ≠ 0) (k : ℕ) :
    iterBal r (P * (r * (1 + r) ^ n) / ((1 + r) ^ n - 1)) P k =
      P * ((1 + r) ^ n - (1 + r) ^ k) / ((1 + r) ^ n - 1) := by
  rw [iterBal_closed _ _ _ hr]
  field_simp
  ring

theorem getD_map_range (g : ℕ → ℚ) {N i : ℕ} (hi : i < N) :
    ((List.range N).map g).getD i 0 = g i := by
  have hlen : i < ((List.range N).map g).length := by simpa using hi
  rw [List.getD_eq_getElem _ _ hlen]
  simp

theorem calculate_mortgage_payment_some {P rate : ℚ} {y f : ℕ} {pay : ℚ}
    (h : calculate_mortgage_payment P rate y f = some pay) :
    f ≠ 0 ∧ (1 + rate / f) ^ (y * f) - 1 ≠ 0 ∧
      pay = P * (rate / f * (1 + rate / f) ^ (y * f)) / ((1 + rate / f) ^ (y * f) - 1) := by
  by_cases hf : f = 0
  · rw [calculate_mortgage_payment, if_pos hf] at h
    exact absurd h (by simp)
  · by_cases hd : (1 + rate / (f : ℚ)) ^ (y * f) - 1 = 0
    · rw [calculate_mortgage_payment, if_neg hf] at h
      simp only [if_pos hd] at h
      exact absurd h (by simp)
    · rw [calculate_mortgage_payment, if_neg hf] at h
      simp only [if_neg hd, Option.some.injEq] at h
      exact ⟨hf, hd, h.symm⟩

theorem annuity_denom_pos {rate : ℚ} {y f : ℕ} (hr : 0 < rate) (hy : 0 < y) (hf : 0 < f) :
    0 < (1 + rate / f) ^ (y * f) - 1 := by
  have hfq : (0 : ℚ) < f := by exact_mod_cast hf
  have hr' : 0 < rate / f := div_pos hr hfq
  have hn : y * f ≠ 0 := Nat.mul_ne_zero hy.ne' hf.ne'
  have : (1 : ℚ) < (1 + rate / f) ^ (y * f) := one_lt_pow₀ (by linarith) hn
  linarith

/-- With the computed annuity payment, the running balance is nonnegative at every step
up to the contractual period count. -/
theorem annuity_balance_nonneg {P rate : ℚ} {y f : ℕ} {pay : ℚ}
    (hP : 0 ≤ P) (hr : 0 < rate) (hy : 0 < y) (hf : 0 < f)
    (hpay : calculate_mortgage_payment P rate y f = some pay) :
    ∀ k, k ≤ y * f → 0 ≤ iterBal (rate / f) pay P k := by
  obtain ⟨hf0, hd0, hpayeq⟩ := calculate_mortgage_payment_some hpay
  have hfq : (0 : ℚ) < f := by exact_mod_cast hf
  have hr' : (0 : ℚ) < rate / f := div_pos hr hfq
  have hdpos := annuity_denom_pos hr hy hf
  intro k hk
  rw [hpayeq, iterBal_annuity _ _ _ hr'.ne' hd0]
  have hpow : (1 + rate / (f : ℚ)) ^ k ≤ (1 + rate / f) ^ (y * f) :=
    pow_le_pow_right₀ (by linarith) hk
  have hnum : 0 ≤ P * ((1 + rate / (f : ℚ)) ^ (y * f) - (1 + rate / f) ^ k) :=
    mul_nonneg hP (by linarith)
  exact div_nonneg hnum hdpos.le

/-- With the computed annuity payment, the running balance after the full contractual
period count is exactly zero. -/
theorem annuity_balance_final_zero {P rate : ℚ} {y f : ℕ} {pay : ℚ}
    (hr : 0 < rate) (hf : 0 < f)
    (hpay : calculate_mortgage_payment P rate y f = some pay) :
    iterBal (rate / f) pay P (y * f) = 0 := by
  obtain ⟨hf0, hd0, hpayeq⟩ := calculate_mortgage_payment_some hpay
  have hfq : (0 : ℚ) < f := by exact_mod_cast hf
  have hr' : (0 : ℚ) < rate / f := div_pos hr hfq
  rw [hpayeq, iterBal_annuity _ _ _ hr'.ne' hd0]
  simp

/-- With the computed annuity payment and a nonnegative principal, the loop never breaks:
it emits one full record per contractual period. -/
theorem schedule_run_eq {P rate : ℚ} {y f : ℕ} {pay : ℚ}
    (hP : 0 ≤ P) (hr : 0 < rate) (hy : 0 < y) (hf : 0 < f)
    (hpay : calculate_mortgage_payment P rate y f = some pay) :
    schedAux (rate / f) pay (y * f) P =
      (List.range (y * f)).map (fun k => fullRecord (rate / f) pay (iterBal (rate / f) pay P k)) := by
  refine schedAux_eq_of_nonneg _ _ _ _ ?_
  intro k hk
  exact annuity_balance_nonneg hP hr hy hf hpay (k + 1) (Nat.succ_le_of_lt hk)

theorem sum_principals_range (r pay b : ℚ) :
    ∀ k, ((List.range k).map (fun j => pay - iterBal r pay b j * r)).sum = b - iterBal r pay b k := by
  intro k
  induction k with
  | zero => simp [iterBal]
  | succ k ih =>
    rw [List.range_succ, List.map_append, List.sum_append, ih]
    simp only [List.map_cons, List.map_nil, List.sum_cons, List.sum_nil, iterBal]
    ring

theorem principal_list_eq {P rate : ℚ} {y f : ℕ} {pay : ℚ}
    (hP : 0 ≤ P) (hr : 0 < rate) (hy : 0 < y) (hf : 0 < f)
    (hpay : calculate_mortgage_payment P rate y f = some pay) :
    (generate_amortization_schedule P rate y f pay).2.2 =
      (List.range (y * f)).map (fun j => pay - iterBal (rate / f) pay P j * (rate / f)) := by
  simp only [generate_amortization_schedule]
  rw [schedule_run_eq hP hr hy hf hpay, List.map_map]
  rfl

theorem annuity_payment_pos {P rate : ℚ} {y f : ℕ} {pay : ℚ}
    (hP : 0 < P) (hr : 0 < rate) (hy : 0 < y) (hf : 0 < f)
    (hpay : calculate_mortgage_payment P rate y f = some pay) : 0 < pay := by
  obtain ⟨hf0, hd0, hpayeq⟩ := calculate_mortgage_payment_some hpay
  have hfq : (0 : ℚ) < f := by exact_mod_cast hf
  have hr' : (0 : ℚ) < rate / f := div_pos hr hfq
  have hdpos := annuity_denom_pos hr hy hf
  rw [hpayeq]
  exact div_pos (mul_pos hP (mul_pos hr' (pow_pos (by linarith) _))) hdpos

theorem annuity_principal_closed (r P : ℚ) (n : ℕ) (hr : r ≠ 0) (hd : (1 + r) ^ n - 1 ≠ 0)
    (k : ℕ) :
    P * (r * (1 + r) ^ n) / ((1 + r) ^ n - 1) -
        iterBal r (P * (r * (1 + r) ^ n) / ((1 + r) ^ n - 1)) P k * r =
      P * (r * (1 + r) ^ k) / ((1 + r) ^ n - 1) := by
  rw [iterBal_annuity _ _ _ hr hd]
  field_simp
  ring

theorem annuity_principal_portion_pos {P rate : ℚ} {y f : ℕ} {pay : ℚ}
    (hP : 0 < P) (hr : 0 < rate) (hy : 0 < y) (hf : 0 < f)
    (hpay : calculate_mortgage_payment P rate y f = some pay) (k : ℕ) :
    0 < pay - iterBal (rate / f) pay P k * (rate / f) := by
  obtain ⟨hf0, hd0, hpayeq⟩ := calculate_mortgage_payment_some hpay
  have hfq : (0 : ℚ) < f := by exact_mod_cast hf
  have hr' : (0 : ℚ) < rate / f := div_pos hr hfq
  have hdpos := annuity_denom_pos hr hy hf
  rw [hpayeq, annuity_principal_closed _ _ _ hr'.ne' hd0]
  exact div_pos (mul_pos hP (mul_pos hr' (pow_pos (by linarith) _))) hdpos

theorem payment_list_eq {P rate : ℚ} {y f : ℕ} {pay : ℚ}
    (hP : 0 ≤ P) (hr : 0 < rate) (hy : 0 < y) (hf : 0 < f)
    (hpay : calculate_mortgage_payment P rate y f = some pay) :
    (generate_amortization_schedule P rate y f pay).1 =
      (List.range (y * f)).map (fun _ => pay) := by
  simp only [generate_amortization_schedule]
  rw [schedule_run_eq hP hr hy hf hpay, List.map_map]
  rfl

theorem interest_list_eq {P rate : ℚ} {y f : ℕ} {pay : ℚ}
    (hP : 0 ≤ P) (hr : 0 < rate) (hy : 0 < y) (hf : 0 < f)
    (hpay : calculate_mortgage_payment P rate y f = some pay) :
    (generate_amortization_schedule P rate y f pay).2.1 =
      (List.range (y * f)).map (fun j => iterBal (rate / f) pay P j * (rate / f)) := by
  simp only [generate_amortization_schedule]
  rw [schedule_run_eq hP hr hy hf hpay, List.map_map]
  rfl

/-- **C2.** For every valid `LoanParameters` with `annualRate > 0`, running
`generate_amortization_schedule` with the payment returned by `calculate_mortgage_payment`
produces principal portions whose sum over the whole emitted schedule equals the original
principal — exactly, in the exact rational arithmetic of this embedding. -/
theorem principal_portions_sum_to_principal {P rate : ℚ} {y f : ℕ} {pay : ℚ}
    (hP : 0 < P) (hr : 0 < rate) (hy : 0 < y) (hf : 0 < f)
    (hpay : calculate_mortgage_payment P rate y f = some pay) :
    (generate_amortization_schedule P rate y f pay).2.2.sum = P := by
  rw [principal_list_eq hP.le hr hy hf hpay, sum_principals_range,
    annuity_balance_final_zero hr hf hpay, sub_zero]

theorem principal_portions_sum_to_principal_witness :
    (0 : ℚ) < 100 ∧ (0 : ℚ) < 1 ∧ 0 < 1 ∧ 0 < 1 ∧
      calculate_mortgage_payment 100 1 1 1 = some 200 ∧
      (generate_amortization_schedule 100 1 1 1 200).2.2.sum = 100 :=
  ⟨by norm_num, by norm_num, by norm_num, by norm_num,
    by norm_num [calculate_mortgage_payment],
    principal_portions_sum_to_principal (by norm_num) (by norm_num) (by norm_num) (by norm_num)
      (by norm_num [calculate_mortgage_payment])⟩

/-- **C3.** For every valid `LoanParameters` with `annualRate > 0` and the computed periodic
payment, the running balance (the principal minus the principal portions emitted so far) is
never negative after any emitted period, and the balance remaining after the last emitted
record is exactly 0. -/
theorem balance_never_negative_and_final_zero {P rate : ℚ} {y f : ℕ} {pay : ℚ}
    (hP : 0 < P) (hr : 0 < rate) (hy : 0 < y) (hf : 0 < f)
    (hpay : calculate_mortgage_payment P rate y f = some pay) :
    (∀ k, k ≤ (generate_amortization_schedule P rate y f pay).2.2.length →
        0 ≤ P - ((generate_amortization_schedule P rate y f pay).2.2.take k).sum) ∧
      P - (generate_amortization_schedule P rate y f pay).2.2.sum = 0 := by
  have hlist := principal_list_eq hP.le hr hy hf hpay
  constructor
  · intro k _
    rw [hlist, ← List.map_take, List.take_range, sum_principals_range]
    have hb := annuity_balance_nonneg hP.le hr hy hf hpay (min k (y * f)) (min_le_right _ _)
    linarith
  · rw [hlist, sum_principals_range, annuity_balance_final_zero hr hf hpay]
    ring

theorem balance_never_negative_and_final_zero_witness :
    (0 : ℚ) < 100 ∧ (0 : ℚ) < 1 ∧ 0 < 1 ∧ 0 < 1 ∧
      calculate_mortgage_payment 100 1 1 1 = some 200 ∧
      ((∀ k, k ≤ (generate_amortization_schedule 100 1 1 1 200).2.2.length →
          0 ≤ (100 : ℚ) - ((generate_amortization_schedule 100 1 1 1 200).2.2.take k).sum) ∧
        (100 : ℚ) - (generate_amortization_schedule 100 1 1 1 200).2.2.sum = 0) :=
  ⟨by norm_num, by norm_num, by norm_num, by norm_num,
    by norm_num [calculate_mortgage_payment],
    balance_never_negative_and_final_zero (by norm_num) (by norm_num) (by norm_num) (by norm_num)
      (by norm_num [calculate_mortgage_payment])⟩

/-- **C7.** For every schedule generated from valid `LoanParameters` with `annualRate > 0`
and the computed periodic payment, every emitted record satisfies
`paymentAmount = interestPortion + principalPortion` (here this in fact holds for every
record, final one included), and the payment, interest and principal portions are each
nonnegative in every emitted period. -/
theorem period_record_decomposition {P rate : ℚ} {y f : ℕ} {pay : ℚ}
    (hP : 0 < P) (hr : 0 < rate) (hy : 0 < y) (hf : 0 < f)
    (hpay : calculate_mortgage_payment P rate y f = some pay) :
    ∀ k, k < (generate_amortization_schedule P rate y f pay).1.length →
      (generate_amortization_schedule P rate y f pay).1.getD k 0 =
          (generate_amortization_schedule P rate y f pay).2.1.getD k 0 +
            (generate_amortization_schedule P rate y f pay).2.2.getD k 0 ∧
        0 ≤ (generate_amortization_schedule P rate y f pay).1.getD k 0 ∧
        0 ≤ (generate_amortization_schedule P rate y f pay).2.1.getD k 0 ∧
        0 ≤ (generate_amortization_schedule P rate y f pay).2.2.getD k 0 := by
  intro k hk
  have hfq : (0 : ℚ) < f := by exact_mod_cast hf
  have hr' : (0 : ℚ) < rate / f := div_pos hr hfq
  have hkn : k < y * f := by
    rw [payment_list_eq hP.le hr hy hf hpay] at hk
    simpa using hk
  rw [payment_list_eq hP.le hr hy hf hpay, interest_list_eq hP.le hr hy hf hpay,
    principal_list_eq hP.le hr hy hf hpay, getD_map_range _ hkn, getD_map_range _ hkn,
    getD_map_range _ hkn]
  refine ⟨by ring, (annuity_payment_pos hP hr hy hf hpay).le, ?_, ?_⟩
  · exact mul_nonneg (annuity_balance_nonneg hP.le hr hy hf hpay k hkn.le) hr'.le
  · exact (annuity_principal_portion_pos hP hr hy hf hpay k).le

theorem period_record_decomposition_witness :
    (0 : ℚ) < 100 ∧ (0 : ℚ) < 1 ∧ 0 < 1 ∧ 0 < 1 ∧
      calculate_mortgage_payment 100 1 1 1 = some 200 ∧
      0 < (generate_amortization_schedule 100 1 1 1 200).1.length ∧
      ((generate_amortization_schedule 100 1 1 1 200).1.getD 0 0 =
          (generate_amortization_schedule 100 1 1 1 200).2.1.getD 0 0 +
            (generate_amortization_schedule 100 1 1 1 200).2.2.getD 0 0 ∧
        0 ≤ (generate_amortization_schedule 100 1 1 1 200).1.getD 0 0 ∧
        0 ≤ (generate_amortization_schedule 100 1 1 1 200).2.1.getD 0 0 ∧
        0 ≤ (generate_amortization_schedule 100 1 1 1 200).2.2.getD 0 0) :=
  ⟨by norm_num, by norm_num, by norm_num, by norm_num,
    by norm_num [calculate_mortgage_payment],
    by norm_num [generate_amortization_schedule, schedAux],
    period_record_decomposition (by norm_num) (by norm_num) (by norm_num) (by norm_num)
      (by norm_num [calculate_mortgage_payment]) 0
      (by norm_num [generate_amortization_schedule, schedAux])⟩

theorem getD_map_range_append (g : ℕ → ℚ) (x : ℚ) {N k : ℕ} (hk : k < N) :
    ((List.range N).map g ++ [x]).getD k 0 = g k := by
  rw [List.getD_append _ _ _ _ (by simpa using hk)]
  exact getD_map_range g hk

theorem getD_map_range_append_last (g : ℕ → ℚ) (x : ℚ) (N : ℕ) :
    ((List.range N).map g ++ [x]).getD N 0 = x := by
  rw [List.getD_append_right _ _ _ _ (by simp)]
  simp

/-- The three output lists of `generate_amortization_schedule` when the balance would first
go negative after period `K` within the contractual term: `K - 1` full records followed by
one shortened record. -/
theorem schedule_break_lists {P rate pay : ℚ} {y f K : ℕ}
    (hK : 0 < K) (hKn : K ≤ y * f)
    (hpos : ∀ j, j < K → 0 ≤ iterBal (rate / f) pay P j)
    (hneg : iterBal (rate / f) pay P K < 0) :
    (generate_amortization_schedule P rate y f pay).1 =
        (List.range (K - 1)).map (fun _ => pay) ++
          [iterBal (rate / f) pay P (K - 1) * (1 + rate / f)] ∧
      (generate_amortization_schedule P rate y f pay).2.1 =
        (List.range (K - 1)).map (fun k => iterBal (rate / f) pay P k * (rate / f)) ++
          [iterBal (rate / f) pay P (K - 1) * (rate / f)] ∧
      (generate_amortization_schedule P rate y f pay).2.2 =
        (List.range (K - 1)).map (fun k => pay - iterBal (rate / f) pay P k * (rate / f)) ++
          [iterBal (rate / f) pay P (K - 1)] := by
  simp only [generate_amortization_schedule]
  rw [schedAux_eq_of_break (rate / f) pay K (y * f) P hK hKn hpos hneg]
  refine ⟨?_, ?_, ?_⟩
  all_goals simp [List.map_append, List.map_map, fullRecord, Function.comp_def]

/-- The three output lists of `generate_amortization_schedule` when the balance stays
nonnegative through all contractual periods: one full record per period. -/
theorem schedule_full_lists {P rate pay : ℚ} {y f : ℕ}
    (hb : ∀ k, k < y * f → 0 ≤ iterBal (rate / f) pay P (k + 1)) :
    (generate_amortization_schedule P rate y f pay).1 =
        (List.range (y * f)).map (fun _ => pay) ∧
      (generate_amortization_schedule P rate y f pay).2.1 =
        (List.range (y * f)).map (fun k => iterBal (rate / f) pay P k * (rate / f)) ∧
      (generate_amortization_schedule P rate y f pay).2.2 =
        (List.range (y * f)).map (fun k => pay - iterBal (rate / f) pay P k * (rate / f)) := by
  simp only [generate_amortization_schedule]
  rw [schedAux_eq_of_nonneg (rate / f) pay (y * f) P hb]
  refine ⟨?_, ?_, ?_⟩
  all_goals simp [List.map_map, fullRecord, Function.comp_def]

/-- **C1.** For every positive principal, nonnegative annual rate, positive term and payment
frequency, and any given periodic payment, the schedule follows the running-balance
recurrence (interest = balance times the per-period rate, principal = payment minus
interest, balance decreasing by the principal portion) for at most
`termYears * paymentsPerYear` periods.  Writing `K` for the number of periods to payoff
(characterized by `hfirst`/`hcut`: the balance is nonnegative before step `K` and would go
negative at step `K` if that happens within the term), the emitted sequence has exactly
`min (termYears * paymentsPerYear) K` records; each record's interest portion is the running
balance times the per-period rate; each non-final record is a full record with the given
payment; and when payoff happens within the term, the final record is shortened: its
principal portion is reduced by the overshoot to exactly the remaining balance (the balance
being clamped to zero) and its payment amount shrinks accordingly. -/
theorem generate_schedule_recurrence {P rate pay : ℚ} {y f K : ℕ}
    (_hP : 0 < P) (_hrate : 0 ≤ rate) (_hy : 0 < y) (_hf : 0 < f) (hK : 0 < K)
    (hfirst : ∀ j, j ≤ y * f → j < K → 0 ≤ iterBal (rate / f) pay P j)
    (hcut : K ≤ y * f → iterBal (rate / f) pay P K < 0) :
    ((generate_amortization_schedule P rate y f pay).1.length = min (y * f) K ∧
      (generate_amortization_schedule P rate y f pay).2.1.length = min (y * f) K ∧
      (generate_amortization_schedule P rate y f pay).2.2.length = min (y * f) K) ∧
    (∀ k, k < min (y * f) K →
      (generate_amortization_schedule P rate y f pay).2.1.getD k 0 =
        iterBal (rate / f) pay P k * (rate / f)) ∧
    (∀ k, k < min (y * f) K → k + 1 < K ∨ y * f < K →
      (generate_amortization_schedule P rate y f pay).1.getD k 0 = pay ∧
      (generate_amortization_schedule P rate y f pay).2.2.getD k 0 =
        pay - iterBal (rate / f) pay P k * (rate / f)) ∧
    (K ≤ y * f →
      (generate_amortization_schedule P rate y f pay).1.getD (K - 1) 0 =
        iterBal (rate / f) pay P (K - 1) * (1 + rate / f) ∧
      (generate_amortization_schedule P rate y f pay).2.2.getD (K - 1) 0 =
        iterBal (rate / f) pay P (K - 1)) := by
  rcases le_or_lt K (y * f) with hKn | hnK
  · have hmin : min (y * f) K = K := Nat.min_eq_right hKn
    obtain ⟨h1, h2, h3⟩ := schedule_break_lists hK hKn
      (fun j hj => hfirst j (le_trans (Nat.le_of_lt hj) hKn) hj) (hcut hKn)
    refine ⟨⟨?_, ?_, ?_⟩, ?_, ?_, ?_⟩
    · rw [h1, hmin]; simp; omega
    · rw [h2, hmin]; simp; omega
    · rw [h3, hmin]; simp; omega
    · intro k hk
      rw [hmin] at hk
      rw [h2]
      rcases Nat.lt_or_ge k (K - 1) with hlt | hge
      · rw [getD_map_range_append _ _ hlt]
      · have hkeq : k = K - 1 := by omega
        subst hkeq
        exact getD_map_range_append_last _ _ _
    · intro k hk hcase
      rw [hmin] at hk
      have hklt : k < K - 1 := by
        rcases hcase with h | h
        · omega
        · omega
      exact ⟨by rw [h1, getD_map_range_append _ _ hklt],
        by rw [h3, getD_map_range_append _ _ hklt]⟩
    · intro _
      exact ⟨by rw [h1]; exact getD_map_range_append_last _ _ _,
        by rw [h3]; exact getD_map_range_append_last _ _ _⟩
  · have hmin : min (y * f) K = y * f := Nat.min_eq_left hnK.le
    have hb : ∀ k, k < y * f → 0 ≤ iterBal (rate / f) pay P (k + 1) := by
      intro k hk
      exact hfirst (k + 1) (by omega) (by omega)
    obtain ⟨h1, h2, h3⟩ := schedule_full_lists hb
    refine ⟨⟨?_, ?_, ?_⟩, ?_, ?_, ?_⟩
    · rw [h1, hmin]; simp
    · rw [h2, hmin]; simp
    · rw [h3, hmin]; simp
    · intro k hk
      rw [hmin] at hk
      rw [h2, getD_map_range _ hk]
    · intro k hk _
      rw [hmin] at hk
      exact ⟨by rw [h1, getD_map_range _ hk], by rw [h3, getD_map_range _ hk]⟩
    · intro hKle
      exact absurd hKle (by omega)

theorem generate_schedule_recurrence_witness :
    (0 : ℚ) < 100 ∧ (0 : ℚ) ≤ 1 ∧ 0 < 3 ∧ 0 < 1 ∧ 0 < 2 ∧
      (∀ j, j ≤ 3 * 1 → j < 2 → 0 ≤ iterBal (1 / ((1 : ℕ) : ℚ)) 150 100 j) ∧
      (2 ≤ 3 * 1 → iterBal (1 / ((1 : ℕ) : ℚ)) 150 100 2 < 0) ∧
      (((generate_amortization_schedule 100 1 3 1 150).1.length = min (3 * 1) 2 ∧
          (generate_amortization_schedule 100 1 3 1 150).2.1.length = min (3 * 1) 2 ∧
          (generate_amortization_schedule 100 1 3 1 150).2.2.length = min (3 * 1) 2) ∧
        (∀ k, k < min (3 * 1) 2 →
          (generate_amortization_schedule 100 1 3 1 150).2.1.getD k 0 =
            iterBal (1 / ((1 : ℕ) : ℚ)) 150 100 k * (1 / ((1 : ℕ) : ℚ))) ∧
        (∀ k, k < min (3 * 1) 2 → k + 1 < 2 ∨ 3 * 1 < 2 →
          (generate_amortization_schedule 100 1 3 1 150).1.getD k 0 = 150 ∧
          (generate_amortization_schedule 100 1 3 1 150).2.2.getD k 0 =
            150 - iterBal (1 / ((1 : ℕ) : ℚ)) 150 100 k * (1 / ((1 : ℕ) : ℚ))) ∧
        (2 ≤ 3 * 1 →
          (generate_amortization_schedule 100 1 3 1 150).1.getD (2 - 1) 0 =
            iterBal (1 / ((1 : ℕ) : ℚ)) 150 100 (2 - 1) * (1 + 1 / ((1 : ℕ) : ℚ)) ∧
          (generate_amortization_schedule 100 1 3 1 150).2.2.getD (2 - 1) 0 =
            iterBal (1 / ((1 : ℕ) : ℚ)) 150 100 (2 - 1))) :=
  ⟨by norm_num, by norm_num, by norm_num, by norm_num, by norm_num,
    by
      intro j h3 h2
      interval_cases j
      · norm_num [iterBal]
      · norm_num [iterBal],
    by
      intro _
      norm_num [iterBal],
    generate_schedule_recurrence (by norm_num) (by norm_num) (by norm_num) (by norm_num)
      (by norm_num)
      (by
        intro j h3 h2
        interval_cases j
        · norm_num [iterBal]
        · norm_num [iterBal])
      (by
        intro _
        norm_num [iterBal])⟩

/-- The `params` dictionary assembled by both UIs (`src/PropertyCalc.py` lines 137-157,
`src/testpropertyCalc.py` lines 190-210): one field per key, in source order. -/
structure InvestmentParams where
  property_value : ℚ
  loan_amount : ℚ
  interest_rate : ℚ
  loan_term : ℕ
  payment_frequency : ℕ
  annual_salary : ℚ
  marginal_tax_rate : ℚ
  weekly_rental_income : ℚ
  annual_rental_increase : ℚ
  annual_expense_increase : ℚ
  property_appreciation : ℚ
  council_rates : ℚ
  water_rates : ℚ
  land_tax : ℚ
  strata_fees : ℚ
  insurance : ℚ
  property_manager_rate : ℚ
  repairs_and_maintenance : ℚ
  depreciation : ℚ

/-- The columns of the result DataFrame of `src/testpropertyCalc.py` lines 146-159
(all the computed columns; the `Year` column `1..N` is omitted as it is just the index). -/
structure OutlookResults where
  rental_income : List ℚ
  interest_payment : List ℚ
  principal_payment : List ℚ
  other_expenses : List ℚ
  total_cash_outflows : List ℚ
  net_cash_flow_before_tax : List ℚ
  taxable_income : List ℚ
  tax_benefit : List ℚ
  net_cash_flow_after_tax : List ℚ
  capital_gains : List ℚ
  final_net_gain_loss : List ℚ

/-- The columns of the result DataFrame of `src/PropertyCalc.py` lines 92-103. -/
structure SimpleResults where
  rental_income : List ℚ
  interest_payment : List ℚ
  principal_payment : List ℚ
  total_expenses : List ℚ
  net_rental_loss : List ℚ
  tax_benefit : List ℚ
  cashflow_after_negative_gearing : List ℚ
  capital_gains : List ℚ
  final_net_gain_loss : List ℚ

/-- Annual rental income at 0-indexed year `i`:
`weekly_rental_income * 52 * (1 + annual_rental_increase) ** i`
(`src/testpropertyCalc.py` lines 97-100, identical formula in `src/PropertyCalc.py` line 68). -/
def rental_at (p : InvestmentParams) (i : ℕ) : ℚ :=
  p.weekly_rental_income * 52 * (1 + p.annual_rental_increase) ^ i

/-- Annual capital gain at 0-indexed year `i`: the `i`-th entry of
`np.diff(property_value * (1 + property_appreciation) ** np.arange(N + 1))`
(`src/testpropertyCalc.py` lines 139-140, identically `src/PropertyCalc.py` lines 87-88). -/
def capital_gain_at (p : InvestmentParams) (i : ℕ) : ℚ :=
  p.property_value * (1 + p.property_appreciation) ^ (i + 1) -
    p.property_value * (1 + p.property_appreciation) ^ i

/-- The per-year aggregation loop of `src/testpropertyCalc.py` lines 76-94: value at index `i`
of the `annual_interest` / `annual_principal` arrays.  `full` years get a slice of `freq`
consecutive records, the boundary year gets the remainder slice, and years after payoff keep
the initial zero (the loop `break`s, leaving `np.zeros` entries untouched). -/
def annual_at (vals : List ℚ) (freq i : ℕ) : ℚ :=
  if i < vals.length / freq then ((vals.drop (i * freq)).take freq).sum
  else if i = vals.length / freq ∧ 0 < vals.length % freq then
    ((vals.drop (i * freq)).take (vals.length % freq)).sum
  else 0

namespace TestPropertyCalc

/-- `other_expenses[i]` of `src/testpropertyCalc.py` lines 102-120: the four escalating items
use exponent `years[i] = i + 1`, `land_tax` and `repairs_and_maintenance` are flat, and the
property manager fee is `property_manager_rate * rental_income[i]`; source term order kept. -/
def other_expenses_at (p : InvestmentParams) (i : ℕ) : ℚ :=
  p.council_rates * (1 + p.annual_expense_increase) ^ (i + 1) +
    p.water_rates * (1 + p.annual_expense_increase) ^ (i + 1) +
    p.land_tax +
    p.strata_fees * (1 + p.annual_expense_increase) ^ (i + 1) +
    p.insurance * (1 + p.annual_expense_increase) ^ (i + 1) +
    p.property_manager_rate * rental_at p i +
    p.repairs_and_maintenance

/-- `calculate_investment_outlook` from `src/testpropertyCalc.py` lines 36-161 (the
generalized variant with a separate `investment_period`).  The numpy-vectorized column
computations are embedded index-wise: each output column is the list of its per-index
values over `i = 0 .. investment_period - 1`.  The call to `calculate_mortgage_payment`
can raise (rate 0, zero frequency), hence the `Option`. -/
def calculate_investment_outlook (p : InvestmentParams) (investment_period : ℕ) :
    Option OutlookResults :=
  (calculate_mortgage_payment p.loan_amount p.interest_rate p.loan_term
      p.payment_frequency).map fun pay =>
    let sched := generate_amortization_schedule p.loan_amount p.interest_rate p.loan_term
      p.payment_frequency pay
    let ai : ℕ → ℚ := fun i => annual_at sched.2.1 p.payment_frequency i
    let ap : ℕ → ℚ := fun i => annual_at sched.2.2 p.payment_frequency i
    let tco : ℕ → ℚ := fun i => ai i + ap i + other_expenses_at p i
    let ncfb : ℕ → ℚ := fun i => rental_at p i - tco i
    let ti : ℕ → ℚ := fun i => rental_at p i - (ai i + other_expenses_at p i + p.depreciation)
    let tb : ℕ → ℚ := fun i => -ti i * p.marginal_tax_rate
    let ncfa : ℕ → ℚ := fun i => ncfb i + tb i
    { rental_income := (List.range investment_period).map (rental_at p)
      interest_payment := (List.range investment_period).map ai
      principal_payment := (List.range investment_period).map ap
      other_expenses := (List.range investment_period).map (other_expenses_at p)
      total_cash_outflows := (List.range investment_period).map tco
      net_cash_flow_before_tax := (List.range investment_period).map ncfb
      taxable_income := (List.range investment_period).map ti
      tax_benefit := (List.range investment_period).map tb
      net_cash_flow_after_tax := (List.range investment_period).map ncfa
      capital_gains := (List.range investment_period).map (capital_gain_at p)
      final_net_gain_loss :=
        (List.range investment_period).map (fun i => ncfa i + capital_gain_at p i) }

end TestPropertyCalc

namespace PropertyCalc

/-- The per-year aggregation of `src/PropertyCalc.py` lines 66-67: a plain slice sum
`sum(vals[i*freq : (i+1)*freq])` with no remainder handling (numpy slices clamp). -/
def simple_annual_at (vals : List ℚ) (freq i : ℕ) : ℚ :=
  ((vals.drop (i * freq)).take freq).sum

/-- `total_annual_expenses[i]` of `src/PropertyCalc.py` lines 71-81: includes the annual
interest and the (non-cash) depreciation, but not the principal; source term order kept. -/
def total_expenses_at (p : InvestmentParams) (ints : List ℚ) (i : ℕ) : ℚ :=
  simple_annual_at ints p.payment_frequency i +
    p.council_rates * (1 + p.annual_expense_increase) ^ (i + 1) +
    p.water_rates * (1 + p.annual_expense_increase) ^ (i + 1) +
    p.land_tax +
    p.strata_fees * (1 + p.annual_expense_increase) ^ (i + 1) +
    p.insurance * (1 + p.annual_expense_increase) ^ (i + 1) +
    p.property_manager_rate * rental_at p i +
    p.repairs_and_maintenance +
    p.depreciation

/-- `calculate_investment_outlook` from `src/PropertyCalc.py` lines 36-105 (the simple
variant: the horizon is implicitly `loan_term`). -/
def calculate_investment_outlook (p : InvestmentParams) : Option SimpleResults :=
  (calculate_mortgage_payment p.loan_amount p.interest_rate p.loan_term
      p.payment_frequency).map fun pay =>
    let sched := generate_amortization_schedule p.loan_amount p.interest_rate p.loan_term
      p.payment_frequency pay
    let nrl : ℕ → ℚ := fun i => rental_at p i - total_expenses_at p sched.2.1 i
    let tb : ℕ → ℚ := fun i => -nrl i * p.marginal_tax_rate
    let npat : ℕ → ℚ := fun i => nrl i + tb i
    { rental_income := (List.range p.loan_term).map (rental_at p)
      interest_payment :=
        (List.range p.loan_term).map (fun i => simple_annual_at sched.2.1 p.payment_frequency i)
      principal_payment :=
        (List.range p.loan_term).map (fun i => simple_annual_at sched.2.2 p.payment_frequency i)
      total_expenses := (List.range p.loan_term).map (total_expenses_at p sched.2.1)
      net_rental_loss := (List.range p.loan_term).map nrl
      tax_benefit := (List.range p.loan_term).map tb
      cashflow_after_negative_gearing := (List.range p.loan_term).map npat
      capital_gains := (List.range p.loan_term).map (capital_gain_at p)
      final_net_gain_loss := (List.range p.loan_term).map (fun i => npat i + capital_gain_at p i) }

end PropertyCalc

theorem outlook_fields {p : InvestmentParams} {N : ℕ} {res : OutlookResults}
    (h : TestPropertyCalc.calculate_investment_outlook p N = some res) :
    ∃ pay, calculate_mortgage_payment p.loan_amount p.interest_rate p.loan_term
        p.payment_frequency = some pay ∧
      res.rental_income = (List.range N).map (rental_at p) ∧
      res.other_expenses = (List.range N).map (TestPropertyCalc.other_expenses_at p) ∧
      res.capital_gains = (List.range N).map (capital_gain_at p) ∧
      res.interest_payment = (List.range N).map (fun i =>
        annual_at (generate_amortization_schedule p.loan_amount p.interest_rate p.loan_term
          p.payment_frequency pay).2.1 p.payment_frequency i) ∧
      res.principal_payment = (List.range N).map (fun i =>
        annual_at (generate_amortization_schedule p.loan_amount p.interest_rate p.loan_term
          p.payment_frequency pay).2.2 p.payment_frequency i) ∧
      res.tax_benefit = (List.range N).map (fun i =>
        -(rental_at p i -
            (annual_at (generate_amortization_schedule p.loan_amount p.interest_rate
                p.loan_term p.payment_frequency pay).2.1 p.payment_frequency i +
              TestPropertyCalc.other_expenses_at p i + p.depreciation)) *
          p.marginal_tax_rate) := by
  obtain ⟨pay, hpay, hres⟩ := Option.map_eq_some'.mp h
  refine ⟨pay, hpay, ?_, ?_, ?_, ?_, ?_, ?_⟩
  all_goals rw [← hres]

/-- **C5.** For every projection year `i` of the generalized projector, `otherExpenses[i]`
equals council rates, water rates, strata fees and insurance each scaled by
`(1 + annualExpenseIncrease) ^ (i + 1)`, plus the flat land tax and repairs and
maintenance, plus `propertyManagerRate * rentalIncome[i]` — in particular it contains
neither interest, nor principal, nor depreciation — and `rentalIncome[i]` uses the
exponent `i`, one compounding step behind the expense exponent. -/
theorem other_expenses_formula {p : InvestmentParams} {N : ℕ} {res : OutlookResults} {i : ℕ}
    (h : TestPropertyCalc.calculate_investment_outlook p N = some res) (hi : i < N) :
    res.other_expenses.getD i 0 =
        p.council_rates * (1 + p.annual_expense_increase) ^ (i + 1) +
          p.water_rates * (1 + p.annual_expense_increase) ^ (i + 1) +
          p.strata_fees * (1 + p.annual_expense_increase) ^ (i + 1) +
          p.insurance * (1 + p.annual_expense_increase) ^ (i + 1) +
          (p.land_tax + p.repairs_and_maintenance) +
          p.property_manager_rate * res.rental_income.getD i 0 ∧
      res.rental_income.getD i 0 =
        p.weekly_rental_income * 52 * (1 + p.annual_rental_increase) ^ i := by
  obtain ⟨pay, hpay, hrent, hoe, _, _, _, _⟩ := outlook_fields h
  rw [hoe, hrent, getD_map_range _ hi, getD_map_range _ hi]
  refine ⟨?_, rfl⟩
  unfold TestPropertyCalc.other_expenses_at rental_at
  ring

/-- **C9.** The generalized projector's annual capital gains form a geometric sequence:
`capitalGain[i] = propertyValue * (1 + appreciation) ^ i * appreciation`, exactly in the
rational arithmetic of this embedding. -/
theorem capital_gains_geometric {p : InvestmentParams} {N : ℕ} {res : OutlookResults} {i : ℕ}
    (h : TestPropertyCalc.calculate_investment_outlook p N = some res) (hi : i < N) :
    res.capital_gains.getD i 0 =
      p.property_value * (1 + p.property_appreciation) ^ i * p.property_appreciation := by
  obtain ⟨pay, hpay, _, _, hcg, _, _, _⟩ := outlook_fields h
  rw [hcg, getD_map_range _ hi]
  unfold capital_gain_at
  ring

theorem generate_schedule_length_le (P rate : ℚ) (y f : ℕ) (pay : ℚ) :
    (generate_amortization_schedule P rate y f pay).2.1.length ≤ y * f ∧
      (generate_amortization_schedule P rate y f pay).2.2.length ≤ y * f := by
  simp only [generate_amortization_schedule]
  constructor
  all_goals simpa using schedAux_length_le _ _ (y * f) P

/-- The aggregation loop leaves a year's entry at zero once the year index is at or past the
loan term, provided the schedule has at most `t * f` records. -/
theorem annual_at_eq_zero {vals : List ℚ} {f t i : ℕ} (hf : 0 < f)
    (hlen : vals.length ≤ t * f) (ht : t ≤ i) : annual_at vals f i = 0 := by
  have hdiv : vals.length / f ≤ t := by
    calc vals.length / f ≤ t * f / f := Nat.div_le_div_right hlen
      _ = t := Nat.mul_div_cancel t hf
  have hc1 : ¬ i < vals.length / f := by
    intro hlt
    exact absurd (lt_of_lt_of_le hlt (hdiv.trans ht)) (lt_irrefl i)
  have hc2 : ¬ (i = vals.length / f ∧ 0 < vals.length % f) := by
    rintro ⟨he, hm⟩
    have htle : t ≤ vals.length / f := he ▸ ht
    have ht2 : vals.length / f = t := le_antisymm hdiv htle
    have hdm := Nat.div_add_mod vals.length f
    rw [ht2, Nat.mul_comm f t] at hdm
    linarith
  unfold annual_at
  rw [if_neg hc1, if_neg hc2]

/-- **C6.** The generalized projector yields zero annual interest and zero annual
principal for every year index at or past the loan term (in particular for all of a
horizon that exceeds the term); and when the schedule retires mid-year (its record count
not a multiple of the frequency), the boundary year's aggregate is the sum over exactly
the remaining remainder records. -/
theorem post_payoff_years_zero {p : InvestmentParams} {N : ℕ} {res : OutlookResults}
    (h : TestPropertyCalc.calculate_investment_outlook p N = some res) :
    (∀ i, p.loan_term ≤ i → i < N →
        res.interest_payment.getD i 0 = 0 ∧ res.principal_payment.getD i 0 = 0) ∧
      (∀ (vals : List ℚ) (g i : ℕ), i = vals.length / g → 0 < vals.length % g →
        annual_at vals g i = ((vals.drop (i * g)).take (vals.length % g)).sum) := by
  obtain ⟨pay, hpay, _, _, _, hint, hprin, _⟩ := outlook_fields h
  obtain ⟨hf0, _, _⟩ := calculate_mortgage_payment_some hpay
  have hf : 0 < p.payment_frequency := Nat.pos_of_ne_zero hf0
  constructor
  · intro i ht hi
    constructor
    · rw [hint, getD_map_range _ hi]
      exact annual_at_eq_zero hf
        (generate_schedule_length_le p.loan_amount p.interest_rate p.loan_term
          p.payment_frequency pay).1 ht
    · rw [hprin, getD_map_range _ hi]
      exact annual_at_eq_zero hf
        (generate_schedule_length_le p.loan_amount p.interest_rate p.loan_term
          p.payment_frequency pay).2 ht
  · intro vals g i hi hm
    unfold annual_at
    rw [if_neg (by omega), if_pos ⟨hi, hm⟩]

/-- **C10.** For any two parameter sets that differ only in the loan parameters
(`loan_amount`, `interest_rate`, `loan_term`, `payment_frequency`) and the same
investment period, the generalized projector produces identical `rental_income` and
`capital_gains` columns: these depend only on the rental and property parameters. -/
theorem rental_and_capital_gains_loan_independent {p q : InvestmentParams} {N : ℕ}
    {rp rq : OutlookResults}
    (h1 : p.property_value = q.property_value)
    (_h2 : p.annual_salary = q.annual_salary)
    (_h3 : p.marginal_tax_rate = q.marginal_tax_rate)
    (h4 : p.weekly_rental_income = q.weekly_rental_income)
    (h5 : p.annual_rental_increase = q.annual_rental_increase)
    (_h6 : p.annual_expense_increase = q.annual_expense_increase)
    (h7 : p.property_appreciation = q.property_appreciation)
    (_h8 : p.council_rates = q.council_rates)
    (_h9 : p.water_rates = q.water_rates)
    (_h10 : p.land_tax = q.land_tax)
    (_h11 : p.strata_fees = q.strata_fees)
    (_h12 : p.insurance = q.insurance)
    (_h13 : p.property_manager_rate = q.property_manager_rate)
    (_h14 : p.repairs_and_maintenance = q.repairs_and_maintenance)
    (_h15 : p.depreciation = q.depreciation)
    (hp : TestPropertyCalc.calculate_investment_outlook p N = some rp)
    (hq : TestPropertyCalc.calculate_investment_outlook q N = some rq) :
    rp.rental_income = rq.rental_income ∧ rp.capital_gains = rq.capital_gains := by
  obtain ⟨pp, _, hrp, _, hcp, _, _, _⟩ := outlook_fields hp
  obtain ⟨pq, _, hrq, _, hcq, _, _, _⟩ := outlook_fields hq
  constructor
  · rw [hrp, hrq]
    refine List.map_congr_left ?_
    intro i _
    unfold rental_at
    rw [h4, h5]
  · rw [hcp, hcq]
    refine List.map_congr_left ?_
    intro i _
    unfold capital_gain_at
    rw [h1, h7]

/-- A small concrete parameter set (one-period loan of 100 at 100% annual rate, weekly rent 1,
property value 1 appreciating 100%, all costs and tax zero) used to evaluate the projectors. -/
def rentalParams : InvestmentParams where
  property_value := 1
  loan_amount := 100
  interest_rate := 1
  loan_term := 1
  payment_frequency := 1
  annual_salary := 0
  marginal_tax_rate := 0
  weekly_rental_income := 1
  annual_rental_increase := 0
  annual_expense_increase := 0
  property_appreciation := 1
  council_rates := 0
  water_rates := 0
  land_tax := 0
  strata_fees := 0
  insurance := 0
  property_manager_rate := 0
  repairs_and_maintenance := 0
  depreciation := 0

/-- `rentalParams` with a different loan amount (200 instead of 100); all non-loan fields
agree with `rentalParams`. -/
def rentalParamsAltLoan : InvestmentParams where
  property_value := 1
  loan_amount := 200
  interest_rate := 1
  loan_term := 1
  payment_frequency := 1
  annual_salary := 0
  marginal_tax_rate := 0
  weekly_rental_income := 1
  annual_rental_increase := 0
  annual_expense_increase := 0
  property_appreciation := 1
  council_rates := 0
  water_rates := 0
  land_tax := 0
  strata_fees := 0
  insurance := 0
  property_manager_rate := 0
  repairs_and_maintenance := 0
  depreciation := 0

theorem other_expenses_formula_witness :
    TestPropertyCalc.calculate_investment_outlook rentalParams 1 =
        some ⟨[52], [100], [100], [0], [200], [-148], [-48], [0], [-148], [1], [-147]⟩ ∧
      (0 : ℕ) < 1 ∧
      ((⟨[52], [100], [100], [0], [200], [-148], [-48], [0], [-148], [1], [-147]⟩ :
            OutlookResults).other_expenses.getD 0 0 =
          rentalParams.council_rates * (1 + rentalParams.annual_expense_increase) ^ (0 + 1) +
            rentalParams.water_rates * (1 + rentalParams.annual_expense_increase) ^ (0 + 1) +
            rentalParams.strata_fees * (1 + rentalParams.annual_expense_increase) ^ (0 + 1) +
            rentalParams.insurance * (1 + rentalParams.annual_expense_increase) ^ (0 + 1) +
            (rentalParams.land_tax + rentalParams.repairs_and_maintenance) +
            rentalParams.property_manager_rate *
              (⟨[52], [100], [100], [0], [200], [-148], [-48], [0], [-148], [1], [-147]⟩ :
                OutlookResults).rental_income.getD 0 0 ∧
        (⟨[52], [100], [100], [0], [200], [-148], [-48], [0], [-148], [1], [-147]⟩ :
            OutlookResults).rental_income.getD 0 0 =
          rentalParams.weekly_rental_income * 52 *
            (1 + rentalParams.annual_rental_increase) ^ 0) := by
  have hconc : TestPropertyCalc.calculate_investment_outlook rentalParams 1 =
      some ⟨[52], [100], [100], [0], [200], [-148], [-48], [0], [-148], [1], [-147]⟩ := by
    norm_num [TestPropertyCalc.calculate_investment_outlook, calculate_mortgage_payment,
      generate_amortization_schedule, schedAux, annual_at, rental_at,
      TestPropertyCalc.other_expenses_at, capital_gain_at, rentalParams, List.range_succ]
  exact ⟨hconc, by norm_num, other_expenses_formula hconc (by norm_num)⟩

theorem capital_gains_geometric_witness :
    TestPropertyCalc.calculate_investment_outlook rentalParams 1 =
        some ⟨[52], [100], [100], [0], [200], [-148], [-48], [0], [-148], [1], [-147]⟩ ∧
      (0 : ℕ) < 1 ∧
      (⟨[52], [100], [100], [0], [200], [-148], [-48], [0], [-148], [1], [-147]⟩ :
          OutlookResults).capital_gains.getD 0 0 =
        rentalParams.property_value * (1 + rentalParams.property_appreciation) ^ 0 *
          rentalParams.property_appreciation := by
  have hconc : TestPropertyCalc.calculate_investment_outlook rentalParams 1 =
      some ⟨[52], [100], [100], [0], [200], [-148], [-48], [0], [-148], [1], [-147]⟩ := by
    norm_num [TestPropertyCalc.calculate_investment_outlook, calculate_mortgage_payment,
      generate_amortization_schedule, schedAux, annual_at, rental_at,
      TestPropertyCalc.other_expenses_at, capital_gain_at, rentalParams, List.range_succ]
  exact ⟨hconc, by norm_num, capital_gains_geometric hconc (by norm_num)⟩

theorem post_payoff_years_zero_witness :
    TestPropertyCalc.calculate_investment_outlook rentalParams 2 =
        some ⟨[52, 52], [100, 0], [100, 0], [0, 0], [200, 0], [-148, 52], [-48, 52], [0, 0],
          [-148, 52], [1, 2], [-147, 54]⟩ ∧
      rentalParams.loan_term ≤ 1 ∧ 1 < 2 ∧
      ((⟨[52, 52], [100, 0], [100, 0], [0, 0], [200, 0], [-148, 52], [-48, 52], [0, 0],
            [-148, 52], [1, 2], [-147, 54]⟩ : OutlookResults).interest_payment.getD 1 0 = 0 ∧
        (⟨[52, 52], [100, 0], [100, 0], [0, 0], [200, 0], [-148, 52], [-48, 52], [0, 0],
            [-148, 52], [1, 2], [-147, 54]⟩ : OutlookResults).principal_payment.getD 1 0 = 0) := by
  have hconc : TestPropertyCalc.calculate_investment_outlook rentalParams 2 =
      some ⟨[52, 52], [100, 0], [100, 0], [0, 0], [200, 0], [-148, 52], [-48, 52], [0, 0],
        [-148, 52], [1, 2], [-147, 54]⟩ := by
    norm_num [TestPropertyCalc.calculate_investment_outlook, calculate_mortgage_payment,
      generate_amortization_schedule, schedAux, annual_at, rental_at,
      TestPropertyCalc.other_expenses_at, capital_gain_at, rentalParams, List.range_succ]
  exact ⟨hconc, by norm_num [rentalParams], by norm_num,
    (post_payoff_years_zero hconc).1 1 (by norm_num [rentalParams]) (by norm_num)⟩

theorem rental_and_capital_gains_loan_independent_witness :
    rentalParams.property_value = rentalParamsAltLoan.property_value ∧
      rentalParams.annual_salary = rentalParamsAltLoan.annual_salary ∧
      rentalParams.marginal_tax_rate = rentalParamsAltLoan.marginal_tax_rate ∧
      rentalParams.weekly_rental_income = rentalParamsAltLoan.weekly_rental_income ∧
      rentalParams.annual_rental_increase = rentalParamsAltLoan.annual_rental_increase ∧
      rentalParams.annual_expense_increase = rentalParamsAltLoan.annual_expense_increase ∧
      rentalParams.property_appreciation = rentalParamsAltLoan.property_appreciation ∧
      rentalParams.council_rates = rentalParamsAltLoan.council_rates ∧
      rentalParams.water_rates = rentalParamsAltLoan.water_rates ∧
      rentalParams.land_tax = rentalParamsAltLoan.land_tax ∧
      rentalParams.strata_fees = rentalParamsAltLoan.strata_fees ∧
      rentalParams.insurance = rentalParamsAltLoan.insurance ∧
      rentalParams.property_manager_rate = rentalParamsAltLoan.property_manager_rate ∧
      rentalParams.repairs_and_maintenance = rentalParamsAltLoan.repairs_and_maintenance ∧
      rentalParams.depreciation = rentalParamsAltLoan.depreciation ∧
      rentalParams.loan_amount ≠ rentalParamsAltLoan.loan_amount ∧
      TestPropertyCalc.calculate_investment_outlook rentalParams 1 =
        some ⟨[52], [100], [100], [0], [200], [-148], [-48], [0], [-148], [1], [-147]⟩ ∧
      TestPropertyCalc.calculate_investment_outlook rentalParamsAltLoan 1 =
        some ⟨[52], [200], [200], [0], [400], [-348], [-148], [0], [-348], [1], [-347]⟩ ∧
      ((⟨[52], [100], [100], [0], [200], [-148], [-48], [0], [-148], [1], [-147]⟩ :
            OutlookResults).rental_income =
          (⟨[52], [200], [200], [0], [400], [-348], [-148], [0], [-348], [1], [-347]⟩ :
            OutlookResults).rental_income ∧
        (⟨[52], [100], [100], [0], [200], [-148], [-48], [0], [-148], [1], [-147]⟩ :
            OutlookResults).capital_gains =
          (⟨[52], [200], [200], [0], [400], [-348], [-148], [0], [-348], [1], [-347]⟩ :
            OutlookResults).capital_gains) := by
  have hp : TestPropertyCalc.calculate_investment_outlook rentalParams 1 =
      some ⟨[52], [100], [100], [0], [200], [-148], [-48], [0], [-148], [1], [-147]⟩ := by
    norm_num [TestPropertyCalc.calculate_investment_outlook, calculate_mortgage_payment,
      generate_amortization_schedule, schedAux, annual_at, rental_at,
      TestPropertyCalc.other_expenses_at, capital_gain_at, rentalParams, List.range_succ]
  have hq : TestPropertyCalc.calculate_investment_outlook rentalParamsAltLoan 1 =
      some ⟨[52], [200], [200], [0], [400], [-348], [-148], [0], [-348], [1], [-347]⟩ := by
    norm_num [TestPropertyCalc.calculate_investment_outlook, calculate_mortgage_payment,
      generate_amortization_schedule, schedAux, annual_at, rental_at,
      TestPropertyCalc.other_expenses_at, capital_gain_at, rentalParamsAltLoan, List.range_succ]
  refine ⟨rfl, rfl, rfl, rfl, rfl, rfl, rfl, rfl, rfl, rfl, rfl, rfl, rfl, rfl, rfl,
    by norm_num [rentalParams, rentalParamsAltLoan], hp, hq, ?_⟩
  exact rental_and_capital_gains_loan_independent (p := rentalParams) (q := rentalParamsAltLoan)
    rfl rfl rfl rfl rfl rfl rfl rfl rfl rfl rfl rfl rfl rfl rfl hp hq

theorem simple_fields {p : InvestmentParams} {res : SimpleResults}
    (h : PropertyCalc.calculate_investment_outlook p = some res) :
    ∃ pay, calculate_mortgage_payment p.loan_amount p.interest_rate p.loan_term
        p.payment_frequency = some pay ∧
      res.rental_income = (List.range p.loan_term).map (rental_at p) ∧
      res.interest_payment = (List.range p.loan_term).map (fun i =>
        PropertyCalc.simple_annual_at (generate_amortization_schedule p.loan_amount
          p.interest_rate p.loan_term p.payment_frequency pay).2.1 p.payment_frequency i) ∧
      res.principal_payment = (List.range p.loan_term).map (fun i =>
        PropertyCalc.simple_annual_at (generate_amortization_schedule p.loan_amount
          p.interest_rate p.loan_term p.payment_frequency pay).2.2 p.payment_frequency i) ∧
      res.tax_benefit = (List.range p.loan_term).map (fun i =>
        -(rental_at p i -
            PropertyCalc.total_expenses_at p (generate_amortization_schedule p.loan_amount
              p.interest_rate p.loan_term p.payment_frequency pay).2.1 i) *
          p.marginal_tax_rate) ∧
      res.capital_gains = (List.range p.loan_term).map (capital_gain_at p) := by
  obtain ⟨pay, hpay, hres⟩ := Option.map_eq_some'.mp h
  refine ⟨pay, hpay, ?_, ?_, ?_, ?_, ?_⟩
  all_goals rw [← hres]

/-- On every index, the generalized remainder-aware aggregation agrees with the plain
clamped slice sum of the simple variant (numpy slices clamp at the end of the array). -/
theorem annual_at_eq_simple {vals : List ℚ} {f : ℕ} (hf : 0 < f) (i : ℕ) :
    annual_at vals f i = PropertyCalc.simple_annual_at vals f i := by
  unfold annual_at PropertyCalc.simple_annual_at
  by_cases h1 : i < vals.length / f
  · rw [if_pos h1]
  · rw [if_neg h1]
    by_cases h2 : i = vals.length / f ∧ 0 < vals.length % f
    · rw [if_pos h2]
      obtain ⟨he, hm⟩ := h2
      have hdm := Nat.div_add_mod vals.length f
      have hlen : (vals.drop (i * f)).length = vals.length % f := by
        rw [List.length_drop, he, Nat.mul_comm (vals.length / f) f]
        omega
      have hml : vals.length % f < f := Nat.mod_lt _ hf
      rw [List.take_of_length_le (le_of_eq hlen),
        List.take_of_length_le (by rw [hlen]; exact hml.le)]
    · rw [if_neg h2]
      push_neg at h1
      have hempty : vals.length ≤ i * f := by
        have hdm := Nat.div_add_mod vals.length f
        have hml : vals.length % f < f := Nat.mod_lt _ hf
        rcases Nat.lt_or_ge (vals.length / f) i with hgt | hge
        · have h4 : (vals.length / f + 1) * f ≤ i * f := Nat.mul_le_mul_right f hgt
          have h5 : (vals.length / f + 1) * f = f * (vals.length / f) + f := by ring
          omega
        · have hie : i = vals.length / f := le_antisymm hge h1
          have hm0 : vals.length % f = 0 := by
            by_contra hne
            exact h2 ⟨hie, Nat.pos_of_ne_zero hne⟩
          rw [hie, Nat.mul_comm (vals.length / f) f]
          omega
      rw [List.drop_eq_nil_of_le hempty]
      simp

/-- **C8 (amended).** With the horizon equal to the loan term, the simple projector of
`src/PropertyCalc.py` and the generalized one of `src/testpropertyCalc.py` agree on rental
income, interest, principal, tax benefit and capital gains.  Their final net gain/loss
columns differ in general (see the counterexample): the simple variant's bottom line adds
the tax benefit to an accrual-style loss (depreciation included, principal excluded) while
the generalized variant starts from the cash flow (principal included, depreciation
excluded), so they agree only when a year's principal equals the depreciation. -/
theorem simple_outlook_special_case {p : InvestmentParams} {r1 : SimpleResults}
    {r2 : OutlookResults}
    (h1 : PropertyCalc.calculate_investment_outlook p = some r1)
    (h2 : TestPropertyCalc.calculate_investment_outlook p p.loan_term = some r2) :
    r1.rental_income = r2.rental_income ∧
      r1.interest_payment = r2.interest_payment ∧
      r1.principal_payment = r2.principal_payment ∧
      r1.tax_benefit = r2.tax_benefit ∧
      r1.capital_gains = r2.capital_gains := by
  obtain ⟨pay1, hpay1, hrent1, hint1, hprin1, htb1, hcg1⟩ := simple_fields h1
  obtain ⟨pay2, hpay2, hrent2, _, hcg2, hint2, hprin2, htb2⟩ := outlook_fields h2
  rw [hpay1] at hpay2
  injection hpay2 with hpe
  subst hpe
  obtain ⟨hf0, _, _⟩ := calculate_mortgage_payment_some hpay1
  have hf : 0 < p.payment_frequency := Nat.pos_of_ne_zero hf0
  refine ⟨?_, ?_, ?_, ?_, ?_⟩
  · rw [hrent1, hrent2]
  · rw [hint1, hint2]
    refine List.map_congr_left ?_
    intro i _
    exact (annual_at_eq_simple hf i).symm
  · rw [hprin1, hprin2]
    refine List.map_congr_left ?_
    intro i _
    exact (annual_at_eq_simple hf i).symm
  · rw [htb1, htb2]
    refine List.map_congr_left ?_
    intro i _
    rw [annual_at_eq_simple hf i]
    unfold PropertyCalc.total_expenses_at TestPropertyCalc.other_expenses_at
    ring
  · rw [hcg1, hcg2]

/-- Counterexample for the claim that the two projector variants produce the same final net
gain/loss: on `rentalParams` (horizon = term = 1) the simple variant's final column is
`[-47]` while the generalized variant's is `[-147]` — the simple bottom line excludes the
principal repayment (100) while the generalized one includes it. -/
theorem simple_vs_general_final_differs :
    (PropertyCalc.calculate_investment_outlook rentalParams).map
        SimpleResults.final_net_gain_loss = some [-47] ∧
      (TestPropertyCalc.calculate_investment_outlook rentalParams
          rentalParams.loan_term).map OutlookResults.final_net_gain_loss = some [-147] ∧
      ([-47] : List ℚ) ≠ [-147] := by
  refine ⟨?_, ?_, by norm_num⟩
  · norm_num [PropertyCalc.calculate_investment_outlook, PropertyCalc.simple_annual_at,
      PropertyCalc.total_expenses_at, calculate_mortgage_payment,
      generate_amortization_schedule, schedAux, rental_at, capital_gain_at, rentalParams,
      List.range_succ]
  · norm_num [TestPropertyCalc.calculate_investment_outlook, calculate_mortgage_payment,
      generate_amortization_schedule, schedAux, annual_at, rental_at,
      TestPropertyCalc.other_expenses_at, capital_gain_at, rentalParams, List.range_succ]

theorem simple_outlook_special_case_witness :
    PropertyCalc.calculate_investment_outlook rentalParams =
        some ⟨[52], [100], [100], [100], [-48], [0], [-48], [1], [-47]⟩ ∧
      TestPropertyCalc.calculate_investment_outlook rentalParams rentalParams.loan_term =
        some ⟨[52], [100], [100], [0], [200], [-148], [-48], [0], [-148], [1], [-147]⟩ ∧
      ((⟨[52], [100], [100], [100], [-48], [0], [-48], [1], [-47]⟩ :
            SimpleResults).rental_income =
          (⟨[52], [100], [100], [0], [200], [-148], [-48], [0], [-148], [1], [-147]⟩ :
            OutlookResults).rental_income ∧
        (⟨[52], [100], [100], [100], [-48], [0], [-48], [1], [-47]⟩ :
            SimpleResults).interest_payment =
          (⟨[52], [100], [100], [0], [200], [-148], [-48], [0], [-148], [1], [-147]⟩ :
            OutlookResults).interest_payment ∧
        (⟨[52], [100], [100], [100], [-48], [0], [-48], [1], [-47]⟩ :
            SimpleResults).principal_payment =
          (⟨[52], [100], [100], [0], [200], [-148], [-48], [0], [-148], [1], [-147]⟩ :
            OutlookResults).principal_payment ∧
        (⟨[52], [100], [100], [100], [-48], [0], [-48], [1], [-47]⟩ :
            SimpleResults).tax_benefit =
          (⟨[52], [100], [100], [0], [200], [-148], [-48], [0], [-148], [1], [-147]⟩ :
            OutlookResults).tax_benefit ∧
        (⟨[52], [100], [100], [100], [-48], [0], [-48], [1], [-47]⟩ :
            SimpleResults).capital_gains =
          (⟨[52], [100], [100], [0], [200], [-148], [-48], [0], [-148], [1], [-147]⟩ :
            OutlookResults).capital_gains) := by
  have ha : PropertyCalc.calculate_investment_outlook rentalParams =
      some ⟨[52], [100], [100], [100], [-48], [0], [-48], [1], [-47]⟩ := by
    norm_num [PropertyCalc.calculate_investment_outlook, PropertyCalc.simple_annual_at,
      PropertyCalc.total_expenses_at, calculate_mortgage_payment,
      generate_amortization_schedule, schedAux, rental_at, capital_gain_at, rentalParams,
      List.range_succ]
  have hb : TestPropertyCalc.calculate_investment_outlook rentalParams
      rentalParams.loan_term =
      some ⟨[52], [100], [100], [0], [200], [-148], [-48], [0], [-148], [1], [-147]⟩ := by
    norm_num [TestPropertyCalc.calculate_investment_outlook, calculate_mortgage_payment,
      generate_amortization_schedule, schedAux, annual_at, rental_at,
      TestPropertyCalc.other_expenses_at, capital_gain_at, rentalParams, List.range_succ]
  exact ⟨ha, hb, simple_outlook_special_case ha hb⟩

/-- Counterexample to the claim that `calculate_mortgage_payment` fails fast on
non-positive principal and that the projector fails when the horizon is below 1: with
principal `-1` (and rate 1, one annual payment over one year) the payment formula returns
the value `-2` normally, and the generalized projector at horizon `0` returns an empty
report rather than failing. -/
theorem mortgage_payment_no_input_validation :
    calculate_mortgage_payment (-1) 1 1 1 = some (-2) ∧
      TestPropertyCalc.calculate_investment_outlook rentalParams 0 =
        some ⟨[], [], [], [], [], [], [], [], [], [], []⟩ := by
  constructor
  · norm_num [calculate_mortgage_payment]
  · norm_num [TestPropertyCalc.calculate_investment_outlook, calculate_mortgage_payment,
      rentalParams]

/-- **C4 (amended).** `calculate_mortgage_payment` fails (a Python `ZeroDivisionError`,
modelled as `none`) exactly when `paymentsPerYear = 0`, `termYears = 0`, `annualRate = 0`,
or the degenerate `annualRate = -2 * paymentsPerYear` with an even period count — the only
ways the annuity denominator `(1 + r) ^ n - 1` vanishes over `ℚ`.  For every other input,
including any principal `≤ 0`, it returns a numeric value; no `InvalidInput` checking
exists.  The projector makes no check of its own on the horizon: whenever the payment
computation succeeds, a horizon of `0` (the only value below 1 expressible here) yields the
empty report rather than an error. -/
theorem mortgage_payment_failure_characterization (P rate : ℚ) (y f : ℕ) :
    (calculate_mortgage_payment P rate y f = none ↔
        f = 0 ∨ y = 0 ∨ rate = 0 ∨ (rate = -2 * f ∧ Even (y * f))) ∧
      ∀ (p : InvestmentParams) (res : OutlookResults),
        TestPropertyCalc.calculate_investment_outlook p 0 = some res →
        res = ⟨[], [], [], [], [], [], [], [], [], [], []⟩ := by
  constructor
  · unfold calculate_mortgage_payment
    by_cases hf : f = 0
    · simp [hf]
    · rw [if_neg hf]
      by_cases hy : y = 0
      · simp [hy]
      · have hn : y * f ≠ 0 := Nat.mul_ne_zero hy hf
        have hfq : ((f : ℚ)) ≠ 0 := Nat.cast_ne_zero.mpr hf
        have hiff : ((if (1 + rate / (f : ℚ)) ^ (y * f) - 1 = 0 then none else
            some (P * (rate / f * (1 + rate / f) ^ (y * f)) /
              ((1 + rate / f) ^ (y * f) - 1))) = none) ↔
            (1 + rate / (f : ℚ)) ^ (y * f) - 1 = 0 := by
          by_cases hd : (1 + rate / (f : ℚ)) ^ (y * f) - 1 = 0
          · simp [hd]
          · simp [hd]
        rw [hiff, sub_eq_zero, pow_eq_one_iff_of_ne_zero hn]
        have e1 : (1 + rate / (f : ℚ) = 1) ↔ rate = 0 := by
          rw [add_right_eq_self, div_eq_zero_iff]
          simp [hfq]
        have e2 : (1 + rate / (f : ℚ) = -1) ↔ rate = -2 * f := by
          constructor
          · intro h
            have hdiv : rate / (f : ℚ) = -2 := by linarith
            rw [div_eq_iff hfq] at hdiv
            linarith
          · intro h
            rw [h]
            field_simp
            ring
        rw [e1, e2]
        simp [hf, hy]
  · intro p res h
    obtain ⟨pay, hpay, hres⟩ := Option.map_eq_some'.mp h
    rw [← hres]
    rfl

theorem mortgage_payment_failure_characterization_witness :
    calculate_mortgage_payment 1 0 1 1 = none ∧
      TestPropertyCalc.calculate_investment_outlook rentalParams 0 =
        some ⟨[], [], [], [], [], [], [], [], [], [], []⟩ ∧
      (⟨[], [], [], [], [], [], [], [], [], [], []⟩ : OutlookResults) =
        ⟨[], [], [], [], [], [], [], [], [], [], []⟩ := by
  have h0 : TestPropertyCalc.calculate_investment_outlook rentalParams 0 =
      some ⟨[], [], [], [], [], [], [], [], [], [], []⟩ := by
    norm_num [TestPropertyCalc.calculate_investment_outlook, calculate_mortgage_payment,
      rentalParams]
  exact ⟨(mortgage_payment_failure_characterization 1 0 1 1).1.mpr
      (Or.inr (Or.inr (Or.inl rfl))),
    h0, (mortgage_payment_failure_characterization 1 0 1 1).2 rentalParams _ h0⟩
